import Mathlib

/-!
Verification of the session token lifecycle manager of pocket-traffic-lawyer
(frontend/src/lib/auth.ts and frontend/src/contexts/AuthContext.tsx).

The client is single-threaded with cooperative scheduling: execution only
interleaves at network suspension points (awaited fetch calls) and at timer
boundaries. We embed the code as explicit state passing over a `World` that
holds the localStorage slot for the `ptl_tokens` key, counters of refresh
and dispatch network calls, and an ordered trace of the network calls
issued. Server behaviour is supplied by oracles (`Nat -> RefreshOutcome`
for the n-th refresh call, `Nat -> Nat` giving the HTTP status of the n-th
request dispatch). `Date.now()` is a parameter `now`; within one call the
clock is treated as constant (the claims under study do not depend on
sub-call clock drift).
-/

/-- Model of a parsed token record stored in the `ptl_tokens` localStorage
slot (auth.ts, type StoredTokens). `JSON.parse` performs no validation, so
each field may be absent (`none`), mirroring a JavaScript object with a
missing property. `expires_at` is a millisecond timestamp. -/
structure StoredTokens where
  access_token : Option String
  refresh_token : Option String
  expires_at : Option Int
deriving DecidableEq

/-- Raw content of the storage slot: either a string that parses as JSON
(`valid`), or one that `JSON.parse` rejects (`corrupt`). -/
inductive RawRecord
  | corrupt
  | valid (t : StoredTokens)
deriving DecidableEq

/-- The localStorage slot for the `ptl_tokens` key; `none` when absent. -/
abbrev Slot := Option RawRecord

/-- JavaScript truthiness of an optional string: `undefined` and the empty
string are falsy. -/
def truthy : Option String → Bool
  | none => false
  | some s => !s.isEmpty

/-- Model of getStoredTokens (auth.ts lines 61-70) as a slot transformer:
an absent slot yields `none`; an unparsable record is removed
(`localStorage.removeItem`) and yields `none`; a parsed record is returned
unvalidated, with the slot unchanged. -/
def readSlot : Slot → Option StoredTokens × Slot
  | none => (none, none)
  | some .corrupt => (none, none)
  | some (.valid t) => (some t, some (.valid t))

/-- Model of the server token response (auth.ts, type TokenResponse); the
server always returns all fields. `expires_in` is in seconds. -/
structure TokenResponse where
  access_token : String
  refresh_token : String
  expires_in : Int
deriving DecidableEq

/-- Model of setStoredTokens (auth.ts lines 72-80): the stored record built
from a token response, with expires_at computed as now plus
expires_in * 1000 milliseconds. -/
def mkStored (now : Int) (r : TokenResponse) : StoredTokens :=
  ⟨some r.access_token, some r.refresh_token, some (now + r.expires_in * 1000)⟩

/-- A network call issued by the client, in the order observed. The
dispatch event records the Authorization bearer token actually attached
(`none` when the request went out unauthenticated). -/
inductive NetEvent
  | refreshCall (refresh_token : String)
  | dispatch (authToken : Option String)
  | logoutPost (refresh_token : String)
deriving DecidableEq

/-- World state of one execution context: the shared storage slot, the
number of refresh network calls and request dispatches issued so far, and
the ordered trace of network calls. -/
structure World where
  slot : Slot
  refreshCount : Nat
  dispatchCount : Nat
  trace : List NetEvent
deriving DecidableEq

/-- Fresh world over a given storage slot: no network call issued yet. -/
def World.mk0 (s : Slot) : World := ⟨s, 0, 0, []⟩

/-- Model of getStoredTokens acting on the world (it may remove a corrupt
record from storage). -/
def getStoredTokens (w : World) : Option StoredTokens × World :=
  ((readSlot w.slot).1, {w with slot := (readSlot w.slot).2})

/-- Model of isAccessExpired (auth.ts lines 86-90): re-reads the store; no
record means expired; `Date.now() > (expires_at - marginSec * 1000)`
otherwise. A record without expires_at gives a NaN comparison, which is
false in JavaScript. The source default for marginSec is 30. -/
def isAccessExpired (marginSec now : Int) (w : World) : Bool × World :=
  ((match (readSlot w.slot).1 with
    | none => true
    | some tk =>
      match tk.expires_at with
      | none => false
      | some e => decide (now > e - marginSec * 1000)),
   {w with slot := (readSlot w.slot).2})

/-- Server outcome of one refresh network call. -/
inductive RefreshOutcome
  | netFail
  | rejected
  | success (r : TokenResponse)

/-- How doRefresh (auth.ts lines 93-108) fails: `noRefreshToken` is the
throw before any network call; `networkError` is the fetch itself
rejecting (transient); `refreshFailed` is the server answering non-ok
(the thrown Error after clearStoredTokens) - the terminal RefreshRejected
of the specification. -/
inductive RefreshError
  | noRefreshToken
  | networkError
  | refreshFailed
deriving DecidableEq

/-- Record a refresh network call in the world. -/
def emitRefreshCall (rt : String) (w : World) : World :=
  {w with refreshCount := w.refreshCount + 1,
          trace := w.trace ++ [.refreshCall rt]}

/-- Model of buildAuthHeaders (auth.ts lines 110-114): the Authorization
header is set only when the token is truthy. -/
def headerToken (tok : Option String) : Option String :=
  if truthy tok then tok else none

/-- Record a request dispatch (a fetch of the wrapped request) in the
world, with the Authorization token actually attached. -/
def emitDispatch (tok : Option String) (w : World) : World :=
  {w with dispatchCount := w.dispatchCount + 1,
          trace := w.trace ++ [.dispatch (headerToken tok)]}

/-- Model of doRefresh (auth.ts lines 93-108): read the store; throw
`noRefreshToken` when no truthy refresh token is present (no network
call); otherwise POST the refresh token. On a rejected fetch the error
propagates (`networkError`) with the store untouched; on a non-ok response
the store is cleared and `refreshFailed` is thrown; on success the new
tokens are stored via setStoredTokens and returned. -/
def doRefresh (refreshO : Nat → RefreshOutcome) (now : Int) (w : World) :
    Except RefreshError TokenResponse × World :=
  match (readSlot w.slot).1 with
  | none => (.error .noRefreshToken, {w with slot := (readSlot w.slot).2})
  | some tk =>
    if truthy tk.refresh_token then
      let w₂ := emitRefreshCall (tk.refresh_token.getD "")
        {w with slot := (readSlot w.slot).2}
      match refreshO w.refreshCount with
      | .netFail => (.error .networkError, w₂)
      | .rejected => (.error .refreshFailed, {w₂ with slot := none})
      | .success r => (.ok r, {w₂ with slot := some (.valid (mkStored now r))})
    else (.error .noRefreshToken, {w with slot := (readSlot w.slot).2})

/-- Dispatch the wrapped request once: the n-th dispatch returns status
`dispatchO n`; the response is modelled as (status, ordinal) so that
returning the original response is returning ordinal 0. -/
def dispatchWith (dispatchO : Nat → Nat) (tok : Option String) (w : World) :
    (Nat × Nat) × World :=
  ((dispatchO w.dispatchCount, w.dispatchCount), emitDispatch tok w)

/-- Model of authorizedRequest lines 117-131: read the store and, when a
record is present and isAccessExpired holds, preemptively doRefresh - on
success the local tokens become the refreshed ones, on any error they
become null and the call proceeds unauthenticated. -/
def preemptiveStage (refreshO : Nat → RefreshOutcome) (now : Int)
    (w : World) : Option StoredTokens × World :=
  match (readSlot w.slot).1 with
  | none => (none, {w with slot := (readSlot w.slot).2})
  | some tk =>
    let p := isAccessExpired 30 now {w with slot := (readSlot w.slot).2}
    if p.1 then
      match doRefresh refreshO now p.2 with
      | (.ok r, w₂) => (some (mkStored now r), w₂)
      | (.error _, w₂) => (none, w₂)
    else (some tk, p.2)

/-- Model of authorizedRequest lines 138-151: when the response status is
401, this is not already a retry, and the store holds a truthy refresh
token, doRefresh once; on success re-dispatch the original request with
the access token re-read from the store; on any refresh error fall through
and return the original response unchanged. -/
def retryStage (refreshO : Nat → RefreshOutcome) (dispatchO : Nat → Nat)
    (now : Int) (retry : Bool) (res : Nat × Nat) (w : World) :
    (Nat × Nat) × World :=
  if res.1 = 401 ∧ retry = false then
    match (readSlot w.slot).1 with
    | some tk =>
      if truthy tk.refresh_token then
        match doRefresh refreshO now {w with slot := (readSlot w.slot).2} with
        | (.ok _, w₂) =>
          dispatchWith dispatchO ((readSlot w₂.slot).1.bind StoredTokens.access_token)
            {w₂ with slot := (readSlot w₂.slot).2}
        | (.error _, w₂) => (res, w₂)
      else (res, {w with slot := (readSlot w.slot).2})
    | none => (res, {w with slot := (readSlot w.slot).2})
  else (res, w)

/-- Model of authorizedRequest (auth.ts lines 116-152): preemptive refresh
stage, one dispatch with whatever access token is available, then the
401-retry stage. `retry` is the `_retry` parameter (false at every
external call site; the retry is a direct fetch, not a recursive call). -/
def authorizedRequest (refreshO : Nat → RefreshOutcome) (dispatchO : Nat → Nat)
    (now : Int) (retry : Bool) (w : World) : (Nat × Nat) × World :=
  let p := preemptiveStage refreshO now w
  let d := dispatchWith dispatchO (p.1.bind StoredTokens.access_token) p.2
  retryStage refreshO dispatchO now retry d.1 d.2

/-- The code of authorizedRequest (auth.ts lines 117-136) executed up to and
including the FIRST network call the invocation issues - either the refresh
fetch inside the preemptive doRefresh, or the request dispatch itself - and
no further: the world at the moment that fetch is in flight. Used to
interleave several concurrent invocations under cooperative scheduling,
where each runs deterministically and without interference until it
suspends at its first awaited fetch. -/
def firstNetworkEvent (now : Int) (w : World) : World :=
  match (readSlot w.slot).1 with
  | none => emitDispatch none {w with slot := (readSlot w.slot).2}
  | some tk =>
    let p := isAccessExpired 30 now {w with slot := (readSlot w.slot).2}
    if p.1 then
      match (readSlot p.2.slot).1 with
      | some tk₂ =>
        if truthy tk₂.refresh_token then
          emitRefreshCall (tk₂.refresh_token.getD "") {p.2 with slot := (readSlot p.2.slot).2}
        else
          emitDispatch none {p.2 with slot := (readSlot p.2.slot).2}
      | none => emitDispatch none {p.2 with slot := (readSlot p.2.slot).2}
    else emitDispatch tk.access_token p.2

/-- Model of authLogout (auth.ts lines 185-199) executed up to its first
suspension point: with a truthy refresh token it issues the logout POST and
suspends awaiting it (returns true); otherwise it skips the POST, clears
the store and completes without suspending (returns false, covering the
clearStoredTokens of the non-POST path). -/
def authLogoutPhase1 (w : World) : Bool × World :=
  match (readSlot w.slot).1 with
  | some tk =>
    if truthy tk.refresh_token then
      (true, {w with slot := (readSlot w.slot).2,
                     trace := w.trace ++ [.logoutPost (tk.refresh_token.getD "")]})
    else (false, {w with slot := none})
  | none => (false, {w with slot := none})

/-- Remainder of logout (AuthContext.tsx lines 116-124) once the logout
POST has resolved (failure is ignored): clearStoredTokens, then the user
state is dropped and the refresh timer is cleared via clearTimeout. -/
def logoutPhase2 (w : World) (_timer : Option Int) : World × Option Int :=
  ({w with slot := none}, none)

/-- Model of scheduleRefresh (AuthContext.tsx lines 35-53): any armed timer
is cleared first; when the store holds no record nothing is armed; when it
does, a one-shot timer is armed with delay
max(expires_at - Date.now() - 30000, 5000) milliseconds. A record without
expires_at yields a NaN delay, which window.setTimeout clamps to 0. The
returned value is the armed delay (`none` when no timer is armed). -/
def scheduleRefresh (now : Int) (w : World) (_timer : Option Int) :
    World × Option Int :=
  match (readSlot w.slot).1 with
  | none => ({w with slot := (readSlot w.slot).2}, none)
  | some tk =>
    ({w with slot := (readSlot w.slot).2},
     match tk.expires_at with
     | some e => some (max (e - now - 30000) 5000)
     | none => some 0)

/-- Body of the timer armed by scheduleRefresh (AuthContext.tsx lines
43-52): await authMe - an authorizedRequest to GET /auth/me whose outcome
is discarded (success and failure alike) - and in the finally block call
scheduleRefresh again on the then-current store. There is no check of
session validity before the authMe call. -/
def refreshTimerCallback (refreshO : Nat → RefreshOutcome)
    (dispatchO : Nat → Nat) (now : Int) (w : World) (timer : Option Int) :
    World × Option Int :=
  scheduleRefresh now (authorizedRequest refreshO dispatchO now false w).2 timer

/-- Actions the AuthContext storage handler can initiate. `fetchIdentity`
is the authMe call fetching the current identity from the server;
`loginCall` (authLogin) is listed so that its absence is expressible. -/
inductive CtxAction
  | fetchIdentity
  | loginCall
deriving DecidableEq

/-- Model of the onStorage handler (AuthContext.tsx lines 76-91), fired on
an external change to localStorage. Input: the event key and new raw value,
the world and the armed timer. Output: the actions initiated, whether the
user state was set to null, and the resulting world and timer. A truthy
new value on the `ptl_tokens` key starts an identity fetch and calls
scheduleRefresh; a falsy one drops the user and clears the timer; any
other key is ignored. -/
def onStorage (key : String) (newValue : Option String) (now : Int)
    (w : World) (timer : Option Int) :
    List CtxAction × Bool × (World × Option Int) :=
  if key = "ptl_tokens" then
    if truthy newValue then
      ([.fetchIdentity], false, scheduleRefresh now w timer)
    else
      ([], true, (w, none))
  else ([], false, (w, timer))

/-- Count of refresh network calls in a trace. -/
def refreshCallsIn : List NetEvent → Nat
  | [] => 0
  | .refreshCall _ :: es => refreshCallsIn es + 1
  | _ :: es => refreshCallsIn es

/-- Scenario for the single-flight law: the store holds a valid session
(access token A, refresh token R) whose access token is expired at the
current time (2000000 > 1000000 - 30000). Two concurrent authorizedRequest
invocations both run to their first network suspension before either
receives a response; under cooperative scheduling nothing mutates the world
in between, so the second call observes the same expired store. -/
def twoConcurrentExpired : World :=
  firstNetworkEvent 2000000 (firstNetworkEvent 2000000
    (World.mk0 (some (.valid ⟨some "A", some "R", some 1000000⟩))))

/-- Scenario for cancellation at fire time: a valid unexpired session
(access token A, refresh token R, expiry far in the future) with the
refresh timer armed. The user invokes logout; while logout awaits the
logout POST, the armed timer fires and its callback runs authMe up to the
dispatch of GET /auth/me; then the POST resolves and logout clears store
and timer; finally the me response (status 200) arrives, the
authorizedRequest finishes, and the finally block reschedules on the
now-empty store. The oracles passed to the final stage are never consulted
on the 200 path. -/
def logoutRaceRun : World × Option Int :=
  let w := World.mk0 (some (.valid ⟨some "A", some "R", some 10000000⟩))
  let w := (authLogoutPhase1 w).2
  let ord := w.dispatchCount
  let w := firstNetworkEvent 0 w
  let wt := logoutPhase2 w (some 5000)
  let w := (retryStage (fun _ => .netFail) (fun _ => 200) 0 false (200, ord) wt.1).2
  scheduleRefresh 0 w wt.2

/-- Scenario for the session pair invariant: a stored record holding an
access token A but no refresh token, with an unexpired expiry
(0 > 1000000 - 30000 is false). -/
def slotHalf : Slot := some (.valid ⟨some "A", none, some 1000000⟩)

lemma readSlot_some {s : Slot} {tk : StoredTokens}
    (h : (readSlot s).1 = some tk) : s = some (.valid tk) := by
  match s with
  | none => simp [readSlot] at h
  | some .corrupt => simp [readSlot] at h
  | some (.valid t) =>
    simp only [readSlot, Option.some.injEq] at h
    rw [h]

lemma readSlot_valid (tk : StoredTokens) :
    readSlot (some (.valid tk)) = (some tk, some (.valid tk)) := rfl

lemma doRefresh_dispatchCount (refreshO : Nat → RefreshOutcome) (now : Int)
    (w : World) : (doRefresh refreshO now w).2.dispatchCount = w.dispatchCount := by
  unfold doRefresh
  cases h : (readSlot w.slot).1 with
  | none => rfl
  | some tk =>
    by_cases htr : truthy tk.refresh_token
    · simp only [htr, if_true]
      cases refreshO w.refreshCount <;> rfl
    · simp [htr]

lemma doRefresh_trace_ext (refreshO : Nat → RefreshOutcome) (now : Int)
    (w : World) : ∃ t, (doRefresh refreshO now w).2.trace = w.trace ++ t := by
  unfold doRefresh
  cases h : (readSlot w.slot).1 with
  | none => exact ⟨[], (List.append_nil _).symm⟩
  | some tk =>
    by_cases htr : truthy tk.refresh_token
    · simp only [htr, if_true]
      cases refreshO w.refreshCount <;>
        exact ⟨[.refreshCall (tk.refresh_token.getD "")], rfl⟩
    · exact ⟨[], by simp [htr]⟩

lemma preemptiveStage_dispatchCount (refreshO : Nat → RefreshOutcome)
    (now : Int) (w : World) :
    (preemptiveStage refreshO now w).2.dispatchCount = w.dispatchCount := by
  unfold preemptiveStage
  cases h : (readSlot w.slot).1 with
  | none => rfl
  | some tk =>
    simp only
    split
    · rcases hd : doRefresh refreshO now (isAccessExpired 30 now
        {w with slot := (readSlot w.slot).2}).2 with ⟨o, w₂⟩
      have := doRefresh_dispatchCount refreshO now (isAccessExpired 30 now
        {w with slot := (readSlot w.slot).2}).2
      rw [hd] at this
      cases o <;> simpa [hd] using this
    · rfl

lemma retryStage_dispatchCount_le (refreshO : Nat → RefreshOutcome)
    (dispatchO : Nat → Nat) (now : Int) (retry : Bool) (res : Nat × Nat)
    (w : World) :
    (retryStage refreshO dispatchO now retry res w).2.dispatchCount ≤ w.dispatchCount + 1 := by
  unfold retryStage
  split
  · cases h : (readSlot w.slot).1 with
    | none => simp
    | some tk =>
      by_cases htr : truthy tk.refresh_token
      · simp only [htr, if_true]
        rcases hd : doRefresh refreshO now {w with slot := (readSlot w.slot).2}
          with ⟨o, w₂⟩
        have h3 : w₂.dispatchCount = w.dispatchCount := by
          have := doRefresh_dispatchCount refreshO now {w with slot := (readSlot w.slot).2}
          rw [hd] at this
          exact this
        cases o with
        | ok r => simp [dispatchWith, emitDispatch, h3]
        | error e => simp [h3]
      · simp [htr]
  · simp

lemma retryStage_dispatchCount_ge (refreshO : Nat → RefreshOutcome)
    (dispatchO : Nat → Nat) (now : Int) (retry : Bool) (res : Nat × Nat)
    (w : World) :
    w.dispatchCount ≤ (retryStage refreshO dispatchO now retry res w).2.dispatchCount := by
  unfold retryStage
  split
  · cases h : (readSlot w.slot).1 with
    | none => simp
    | some tk =>
      by_cases htr : truthy tk.refresh_token
      · simp only [htr, if_true]
        rcases hd : doRefresh refreshO now {w with slot := (readSlot w.slot).2}
          with ⟨o, w₂⟩
        have h3 : w₂.dispatchCount = w.dispatchCount := by
          have := doRefresh_dispatchCount refreshO now {w with slot := (readSlot w.slot).2}
          rw [hd] at this
          exact this
        cases o with
        | ok r => simp [dispatchWith, emitDispatch, h3]
        | error e => simp [h3]
      · simp [htr]
  · simp

lemma retryStage_trace_ext (refreshO : Nat → RefreshOutcome)
    (dispatchO : Nat → Nat) (now : Int) (retry : Bool) (res : Nat × Nat)
    (w : World) :
    ∃ t, (retryStage refreshO dispatchO now retry res w).2.trace = w.trace ++ t := by
  unfold retryStage
  split
  · cases h : (readSlot w.slot).1 with
    | none => exact ⟨[], (List.append_nil _).symm⟩
    | some tk =>
      by_cases htr : truthy tk.refresh_token
      · simp only [htr, if_true]
        rcases hd : doRefresh refreshO now {w with slot := (readSlot w.slot).2}
          with ⟨o, w₂⟩
        obtain ⟨t, ht⟩ := doRefresh_trace_ext refreshO now {w with slot := (readSlot w.slot).2}
        rw [hd] at ht
        have ht' : w₂.trace = w.trace ++ t := ht
        cases o with
        | ok r =>
          refine ⟨t ++ [.dispatch (headerToken ((readSlot w₂.slot).1.bind
            StoredTokens.access_token))], ?_⟩
          simp [dispatchWith, emitDispatch, ht', List.append_assoc]
        | error e => exact ⟨t, ht'⟩
      · exact ⟨[], by simp [htr]⟩
  · exact ⟨[], (List.append_nil _).symm⟩

lemma dispatchWith_world (dispatchO : Nat → Nat) (tok : Option String)
    (w : World) : (dispatchWith dispatchO tok w).2 = emitDispatch tok w := rfl

lemma authorizedRequest_dispatchCount_le (refreshO : Nat → RefreshOutcome)
    (dispatchO : Nat → Nat) (now : Int) (retry : Bool) (w : World) :
    (authorizedRequest refreshO dispatchO now retry w).2.dispatchCount ≤ w.dispatchCount + 2 := by
  unfold authorizedRequest
  have h1 : (dispatchWith dispatchO ((preemptiveStage refreshO now w).1.bind
      StoredTokens.access_token) (preemptiveStage refreshO now w).2).2.dispatchCount
      = w.dispatchCount + 1 := by
    have := preemptiveStage_dispatchCount refreshO now w
    simp [dispatchWith, emitDispatch, this]
  have h2 := retryStage_dispatchCount_le refreshO dispatchO now retry
    (dispatchWith dispatchO ((preemptiveStage refreshO now w).1.bind
      StoredTokens.access_token) (preemptiveStage refreshO now w).2).1
    (dispatchWith dispatchO ((preemptiveStage refreshO now w).1.bind
      StoredTokens.access_token) (preemptiveStage refreshO now w).2).2
  rw [h1] at h2
  exact h2

lemma authorizedRequest_dispatchCount_ge (refreshO : Nat → RefreshOutcome)
    (dispatchO : Nat → Nat) (now : Int) (retry : Bool) (w : World) :
    w.dispatchCount + 1 ≤ (authorizedRequest refreshO dispatchO now retry w).2.dispatchCount := by
  unfold authorizedRequest
  have h1 : (dispatchWith dispatchO ((preemptiveStage refreshO now w).1.bind
      StoredTokens.access_token) (preemptiveStage refreshO now w).2).2.dispatchCount
      = w.dispatchCount + 1 := by
    have := preemptiveStage_dispatchCount refreshO now w
    simp [dispatchWith, emitDispatch, this]
  have h2 := retryStage_dispatchCount_ge refreshO dispatchO now retry
    (dispatchWith dispatchO ((preemptiveStage refreshO now w).1.bind
      StoredTokens.access_token) (preemptiveStage refreshO now w).2).1
    (dispatchWith dispatchO ((preemptiveStage refreshO now w).1.bind
      StoredTokens.access_token) (preemptiveStage refreshO now w).2).2
  rw [h1] at h2
  exact h2

/-- C1: the claim states that N >= 2 concurrent authorized calls issued
while the stored access token is expired produce exactly one refresh
network call. The code has no single-flight gate: each invocation of
authorizedRequest calls doRefresh independently, and two concurrent calls
that both reach their refresh fetch before either response arrives issue
TWO refresh network calls, not one. This theorem evaluates the code at
that failing input. -/
theorem single_flight_two_refresh_calls :
    twoConcurrentExpired.trace = [NetEvent.refreshCall "R", NetEvent.refreshCall "R"]
    ∧ refreshCallsIn twoConcurrentExpired.trace = 2 := by
  constructor <;> rfl

/-- C5: the claim states that no scheduled task executes network I/O for a
terminated session after logout, because session validity is checked at
fire time. The timer callback calls authMe unconditionally, with no
fire-time validity check: in the run where the timer fires while logout
awaits the logout POST, the trace shows the callback dispatching
GET /auth/me with the terminated session access token A after the logout
POST went out; and a callback run against an already-cleared store still
dispatches a network request. The final timer is none only because
clearTimeout ran and the rescheduling found an empty store. -/
theorem cancellation_unsafe_at_fire_time :
    logoutRaceRun.1.trace = [NetEvent.logoutPost "R", NetEvent.dispatch (some "A")]
    ∧ logoutRaceRun.2 = none
    ∧ (refreshTimerCallback (fun _ => .netFail) (fun _ => 200) 0
        (World.mk0 none) none).1.trace = [NetEvent.dispatch none] := by
  refine ⟨?_, ?_, ?_⟩ <;> rfl

/-- C9: a stored record that is absent, or that cannot be parsed, is read
as no session, the corrupt record is removed from the slot, and no error
is surfaced (readSlot is total, mirroring the try/catch in
getStoredTokens). -/
theorem corrupted_record_tolerance :
    readSlot none = (none, none) ∧ readSlot (some .corrupt) = (none, none) := by
  constructor <;> rfl

/-- C6 counterexample: the claim states that a stored record with an
access token but no refresh token is treated by every reader of the
TokenStore as no session. It is not: getStoredTokens returns the
half-record unvalidated, and authorizedRequest attaches its access token A
to the dispatched request, observably unlike the absent-session run, which
dispatches unauthenticated. -/
theorem session_pair_counterexample :
    (readSlot slotHalf).1 = some ⟨some "A", none, some 1000000⟩
    ∧ (authorizedRequest (fun _ => .netFail) (fun _ => 200) 0 false
        (World.mk0 slotHalf)).2.trace = [NetEvent.dispatch (some "A")]
    ∧ (authorizedRequest (fun _ => .netFail) (fun _ => 200) 0 false
        (World.mk0 none)).2.trace = [NetEvent.dispatch none] := by
  refine ⟨?_, ?_, ?_⟩ <;> rfl

/-- C6 amended: doRefresh treats a stored record without a truthy refresh
token as no session - it fails with noRefreshToken before any network call
and mutates nothing beyond the corrupt-record cleanup of the read - but
getStoredTokens itself returns such a record unvalidated (see the
counterexample). -/
theorem session_pair_amended (refreshO : Nat → RefreshOutcome) (now : Int)
    (w : World)
    (h : truthy ((readSlot w.slot).1.bind StoredTokens.refresh_token) = false) :
    doRefresh refreshO now w
      = (.error .noRefreshToken, {w with slot := (readSlot w.slot).2})
    ∧ (doRefresh refreshO now w).2.refreshCount = w.refreshCount
    ∧ (doRefresh refreshO now w).2.trace = w.trace := by
  have hmain : doRefresh refreshO now w
      = (.error .noRefreshToken, {w with slot := (readSlot w.slot).2}) := by
    unfold doRefresh
    cases hr : (readSlot w.slot).1 with
    | none => rfl
    | some tk =>
      rw [hr] at h
      simp only [Option.bind] at h
      simp [h]
  refine ⟨hmain, ?_, ?_⟩ <;> rw [hmain]

theorem session_pair_amended_witness :
    doRefresh (fun _ => RefreshOutcome.netFail) 0 (World.mk0 slotHalf)
      = (.error .noRefreshToken, World.mk0 slotHalf) := by
  have h := (session_pair_amended (fun _ => RefreshOutcome.netFail) 0
    (World.mk0 slotHalf) (by decide)).1
  exact h

/-- C3: when the refresh POST is answered with a rejection, doRefresh
clears the TokenStore and fails with refreshFailed (the RefreshRejected of
the specification), issuing exactly one network call and no retry; when
the fetch itself fails transiently, doRefresh fails with networkError and
the TokenStore is left untouched, so a later attempt can retry with the
same refresh token. -/
theorem refresh_failure_discriminates (refreshO : Nat → RefreshOutcome)
    (now : Int) (w : World) (tk : StoredTokens)
    (hread : (readSlot w.slot).1 = some tk)
    (htr : truthy tk.refresh_token = true) :
    (refreshO w.refreshCount = .rejected →
      doRefresh refreshO now w
        = (.error .refreshFailed,
           ⟨none, w.refreshCount + 1, w.dispatchCount,
            w.trace ++ [.refreshCall (tk.refresh_token.getD "")]⟩))
    ∧ (refreshO w.refreshCount = .netFail →
      doRefresh refreshO now w
        = (.error .networkError,
           ⟨w.slot, w.refreshCount + 1, w.dispatchCount,
            w.trace ++ [.refreshCall (tk.refresh_token.getD "")]⟩)) := by
  have hs := readSlot_some hread
  constructor
  · intro ho
    unfold doRefresh
    rw [hs]
    simp [readSlot, htr, ho, emitRefreshCall]
  · intro ho
    unfold doRefresh
    rw [hs]
    simp [readSlot, htr, ho, emitRefreshCall]

theorem refresh_failure_discriminates_witness :
    doRefresh (fun _ => RefreshOutcome.rejected) 0
      (World.mk0 (some (.valid ⟨some "A", some "R", some 0⟩)))
      = (.error .refreshFailed, ⟨none, 1, 0, [NetEvent.refreshCall "R"]⟩)
    ∧ doRefresh (fun _ => RefreshOutcome.netFail) 0
      (World.mk0 (some (.valid ⟨some "A", some "R", some 0⟩)))
      = (.error .networkError,
         ⟨some (.valid ⟨some "A", some "R", some 0⟩), 1, 0,
          [NetEvent.refreshCall "R"]⟩) := by
  constructor
  · exact (refresh_failure_discriminates (fun _ => RefreshOutcome.rejected) 0
      (World.mk0 (some (.valid ⟨some "A", some "R", some 0⟩)))
      ⟨some "A", some "R", some 0⟩ rfl (by decide)).1 rfl
  · exact (refresh_failure_discriminates (fun _ => RefreshOutcome.netFail) 0
      (World.mk0 (some (.valid ⟨some "A", some "R", some 0⟩)))
      ⟨some "A", some "R", some 0⟩ rfl (by decide)).2 rfl

lemma readSlot_idem (s : Slot) : readSlot (readSlot s).2 = readSlot s := by
  match s with
  | none => rfl
  | some .corrupt => rfl
  | some (.valid t) => rfl

lemma scheduleRefresh_counts (now : Int) (w : World) (timer : Option Int) :
    (scheduleRefresh now w timer).1.dispatchCount = w.dispatchCount
    ∧ (scheduleRefresh now w timer).1.trace = w.trace := by
  unfold scheduleRefresh
  cases h : (readSlot w.slot).1 <;> exact ⟨rfl, rfl⟩

/-- C7: scheduleRefresh arms a one-shot task after
delay = max(expires_at - now - margin, floor) with margin 30000 ms and
floor 5000 ms; with a session expiring 100000 ms from now the armed delay
is 70000 ms; the armed task performs an authenticated identity lookup
(at least one request dispatch happens in the callback, whatever the
server answers) and then reschedules from the then-current store - arming
the same delay formula when a session is present, and arming nothing when
the store has been cleared in the meantime. -/
theorem scheduler_delay_and_reschedule (refreshO : Nat → RefreshOutcome)
    (dispatchO : Nat → Nat) (now : Int) (w : World) (timer : Option Int) :
    (∀ tk e, (readSlot w.slot).1 = some tk → tk.expires_at = some e →
      (scheduleRefresh now w timer).2 = some (max (e - now - 30000) 5000))
    ∧ (∀ tk, (readSlot w.slot).1 = some tk → tk.expires_at = some (now + 100000) →
      (scheduleRefresh now w timer).2 = some 70000)
    ∧ w.dispatchCount + 1
        ≤ (refreshTimerCallback refreshO dispatchO now w timer).1.dispatchCount
    ∧ (∀ tk e,
        (readSlot (authorizedRequest refreshO dispatchO now false w).2.slot).1 = some tk →
        tk.expires_at = some e →
        (refreshTimerCallback refreshO dispatchO now w timer).2
          = some (max (e - now - 30000) 5000))
    ∧ ((readSlot (authorizedRequest refreshO dispatchO now false w).2.slot).1 = none →
        (refreshTimerCallback refreshO dispatchO now w timer).2 = none) := by
  refine ⟨?_, ?_, ?_, ?_, ?_⟩
  · intro tk e h he
    unfold scheduleRefresh
    rw [h]
    simp [he]
  · intro tk h he
    unfold scheduleRefresh
    rw [h]
    simp only [he]
    have h70 : max (now + 100000 - now - 30000) 5000 = (70000 : Int) := by omega
    simp [h70]
  · unfold refreshTimerCallback
    have h1 := authorizedRequest_dispatchCount_ge refreshO dispatchO now false w
    have h2 := (scheduleRefresh_counts now
      (authorizedRequest refreshO dispatchO now false w).2 timer).1
    omega
  · intro tk e h he
    unfold refreshTimerCallback scheduleRefresh
    rw [h]
    simp [he]
  · intro h
    unfold refreshTimerCallback scheduleRefresh
    rw [h]

theorem scheduler_delay_and_reschedule_witness :
    (scheduleRefresh 0
      (World.mk0 (some (.valid ⟨some "A", some "R", some 100000⟩))) none).2
      = some 70000 :=
  (scheduler_delay_and_reschedule (fun _ => RefreshOutcome.netFail)
    (fun _ => 200) 0 (World.mk0 (some (.valid ⟨some "A", some "R", some 100000⟩)))
    none).2.1 ⟨some "A", some "R", some 100000⟩ rfl (by decide)

/-- C8: for a storage change event on the `ptl_tokens` slot, a truthy new
value makes the handler fetch the identity from the server (authMe, never
a login call) and reschedule the session timer via scheduleRefresh; a
cleared slot makes it drop the user to none and cancel the timer, with no
identity fetch. -/
theorem cross_context_propagation (now : Int) (w : World) (timer : Option Int)
    (nv : Option String) :
    (truthy nv = true →
      (onStorage "ptl_tokens" nv now w timer).1 = [CtxAction.fetchIdentity]
      ∧ CtxAction.loginCall ∉ (onStorage "ptl_tokens" nv now w timer).1
      ∧ (onStorage "ptl_tokens" nv now w timer).2.2 = scheduleRefresh now w timer)
    ∧ (truthy nv = false →
      (onStorage "ptl_tokens" nv now w timer).1 = []
      ∧ (onStorage "ptl_tokens" nv now w timer).2.1 = true
      ∧ (onStorage "ptl_tokens" nv now w timer).2.2.2 = none) := by
  constructor
  · intro h
    unfold onStorage
    simp [h]
  · intro h
    unfold onStorage
    simp [h]

theorem cross_context_propagation_witness :
    (onStorage "ptl_tokens" (some "x") 0 (World.mk0 none) none).1
      = [CtxAction.fetchIdentity]
    ∧ (onStorage "ptl_tokens" none 0 (World.mk0 none) none).2.2.2 = none := by
  constructor
  · exact ((cross_context_propagation 0 (World.mk0 none) none (some "x")).1
      (by decide)).1
  · exact ((cross_context_propagation 0 (World.mk0 none) none none).2 rfl).2.2

lemma preemptiveStage_noRT (refreshO : Nat → RefreshOutcome) (now : Int)
    (w : World)
    (hrt : truthy ((readSlot w.slot).1.bind StoredTokens.refresh_token) = false) :
    (preemptiveStage refreshO now w).2 = {w with slot := (readSlot w.slot).2}
    ∧ (preemptiveStage refreshO now w).2.refreshCount = w.refreshCount := by
  have hmain : (preemptiveStage refreshO now w).2
      = {w with slot := (readSlot w.slot).2} := by
    unfold preemptiveStage
    cases h : (readSlot w.slot).1 with
    | none => rfl
    | some tk =>
      rw [h] at hrt
      simp only [Option.bind] at hrt
      have hs := readSlot_some h
      rw [hs]
      simp only [isAccessExpired, doRefresh, readSlot, hrt]
      split <;> simp
  refine ⟨hmain, ?_⟩
  rw [hmain]

lemma retryStage_noRT (refreshO : Nat → RefreshOutcome) (dispatchO : Nat → Nat)
    (now : Int) (res : Nat × Nat) (w : World) (h401 : res.1 = 401)
    (hrt : truthy ((readSlot w.slot).1.bind StoredTokens.refresh_token) = false) :
    retryStage refreshO dispatchO now false res w
      = (res, {w with slot := (readSlot w.slot).2}) := by
  unfold retryStage
  rw [if_pos ⟨h401, rfl⟩]
  cases h : (readSlot w.slot).1 with
  | none => rfl
  | some tk =>
    rw [h] at hrt
    simp only [Option.bind] at hrt
    simp [hrt]

/-- C10: when no truthy refresh token is present in the store and the
first dispatch of the wrapped request returns 401, authorizedRequest
returns that unauthorized response directly (ordinal 0, status 401),
issues no refresh network call at all, and dispatches the underlying
request exactly once. -/
theorem unauthorized_without_refresh_token (refreshO : Nat → RefreshOutcome)
    (dispatchO : Nat → Nat) (now : Int) (s : Slot)
    (hrt : truthy ((readSlot s).1.bind StoredTokens.refresh_token) = false)
    (h401 : dispatchO 0 = 401) :
    (authorizedRequest refreshO dispatchO now false (World.mk0 s)).1 = (401, 0)
    ∧ (authorizedRequest refreshO dispatchO now false (World.mk0 s)).2.refreshCount = 0
    ∧ (authorizedRequest refreshO dispatchO now false (World.mk0 s)).2.dispatchCount = 1 := by
  have hrt0 : truthy ((readSlot (World.mk0 s).slot).1.bind
      StoredTokens.refresh_token) = false := hrt
  obtain ⟨hp, hprc⟩ := preemptiveStage_noRT refreshO now (World.mk0 s) hrt0
  simp only [authorizedRequest]
  rw [hp]
  have hd1 : (dispatchWith dispatchO ((preemptiveStage refreshO now
      (World.mk0 s)).1.bind StoredTokens.access_token)
      {World.mk0 s with slot := (readSlot (World.mk0 s).slot).2}).1 = (401, 0) := by
    simp [dispatchWith, World.mk0, h401]
  rw [hd1]
  have hrt1 : truthy ((readSlot (emitDispatch ((preemptiveStage refreshO now
      (World.mk0 s)).1.bind StoredTokens.access_token)
      {World.mk0 s with slot := (readSlot (World.mk0 s).slot).2}).slot).1.bind
      StoredTokens.refresh_token) = false := by
    simp only [emitDispatch]
    rw [readSlot_idem]
    exact hrt
  have hr := retryStage_noRT refreshO dispatchO now (401, 0)
    (emitDispatch ((preemptiveStage refreshO now (World.mk0 s)).1.bind
      StoredTokens.access_token)
      {World.mk0 s with slot := (readSlot (World.mk0 s).slot).2}) rfl hrt1
  rw [dispatchWith_world, hr]
  refine ⟨rfl, ?_, ?_⟩ <;> simp [emitDispatch, World.mk0]

theorem unauthorized_without_refresh_token_witness :
    (authorizedRequest (fun _ => RefreshOutcome.netFail) (fun _ => 401) 0 false
      (World.mk0 none)).1 = (401, 0) :=
  (unauthorized_without_refresh_token (fun _ => RefreshOutcome.netFail)
    (fun _ => 401) 0 none rfl rfl).1

lemma truthy_some_of_ne {s : String} (h : s ≠ "") : truthy (some s) = true := by
  have h2 : ¬ s.isEmpty = true := by simpa [String.isEmpty_iff] using h
  simp [truthy, h2]

/-- C2: authorizedRequest dispatches the underlying request at most twice
in every run; a call already marked as a retry never re-dispatches; and
when the first dispatch returns 401 on a non-retry call with a truthy
refresh token in the store, the retry stage issues exactly one refresh
network call and, on refresh success, re-dispatches the original request
exactly once with the new access token, while on refresh failure (network
or rejection) it returns the original unauthorized response unchanged with
no re-dispatch. -/
theorem retry_at_most_once (refreshO : Nat → RefreshOutcome)
    (dispatchO : Nat → Nat) (now : Int) (w : World) (retry : Bool)
    (res : Nat × Nat) :
    (authorizedRequest refreshO dispatchO now retry w).2.dispatchCount ≤ w.dispatchCount + 2
    ∧ retryStage refreshO dispatchO now true res w = (res, w)
    ∧ (∀ tk, res.1 = 401 → (readSlot w.slot).1 = some tk →
        truthy tk.refresh_token = true →
        ((∀ r, refreshO w.refreshCount = .success r → r.access_token ≠ "" →
          retryStage refreshO dispatchO now false res w
            = ((dispatchO w.dispatchCount, w.dispatchCount),
               ⟨some (.valid (mkStored now r)), w.refreshCount + 1,
                w.dispatchCount + 1,
                w.trace ++ [.refreshCall (tk.refresh_token.getD ""),
                            .dispatch (some r.access_token)]⟩))
        ∧ (refreshO w.refreshCount = .netFail →
          retryStage refreshO dispatchO now false res w
            = (res, ⟨w.slot, w.refreshCount + 1, w.dispatchCount,
                     w.trace ++ [.refreshCall (tk.refresh_token.getD "")]⟩))
        ∧ (refreshO w.refreshCount = .rejected →
          retryStage refreshO dispatchO now false res w
            = (res, ⟨none, w.refreshCount + 1, w.dispatchCount,
                     w.trace ++ [.refreshCall (tk.refresh_token.getD "")]⟩)))) := by
  refine ⟨authorizedRequest_dispatchCount_le refreshO dispatchO now retry w, ?_, ?_⟩
  · unfold retryStage
    simp
  · intro tk h401 hread htr
    have hs := readSlot_some hread
    refine ⟨?_, ?_, ?_⟩
    · intro r hsucc hne
      unfold retryStage doRefresh
      rw [if_pos ⟨h401, rfl⟩, hs]
      simp [readSlot, htr, hsucc, emitRefreshCall, dispatchWith, emitDispatch,
        headerToken, mkStored, truthy_some_of_ne hne]
    · intro hfail
      unfold retryStage doRefresh
      rw [if_pos ⟨h401, rfl⟩, hs]
      simp [readSlot, htr, hfail, emitRefreshCall]
    · intro hrej
      unfold retryStage doRefresh
      rw [if_pos ⟨h401, rfl⟩, hs]
      simp [readSlot, htr, hrej, emitRefreshCall]

theorem retry_at_most_once_witness :
    retryStage (fun _ => RefreshOutcome.success ⟨"A2", "R2", 3600⟩)
      (fun n => if n = 0 then 401 else 200) 0 false (401, 0)
      ⟨some (.valid ⟨some "A", some "R", some 1000000000⟩), 0, 1,
       [NetEvent.dispatch (some "A")]⟩
    = ((200, 1),
       ⟨some (.valid ⟨some "A2", some "R2", some 3600000⟩), 1, 2,
        [NetEvent.dispatch (some "A"), NetEvent.refreshCall "R",
         NetEvent.dispatch (some "A2")]⟩) := by
  have h := ((retry_at_most_once (fun _ => RefreshOutcome.success ⟨"A2", "R2", 3600⟩)
    (fun n => if n = 0 then 401 else 200) 0
    ⟨some (.valid ⟨some "A", some "R", some 1000000000⟩), 0, 1,
     [NetEvent.dispatch (some "A")]⟩ false (401, 0)).2.2
    ⟨some "A", some "R", some 1000000000⟩ rfl rfl (by decide)).1
    ⟨"A2", "R2", 3600⟩ rfl (by decide)
  exact h.trans (by decide)

lemma preemptiveStage_trace_expired (refreshO : Nat → RefreshOutcome)
    (now : Int) (w : World) (a r : String) (e : Int)
    (hs : w.slot = some (.valid ⟨some a, some r, some e⟩)) (hr : r ≠ "")
    (hexp : now > e - 30 * 1000) :
    (preemptiveStage refreshO now w).2.trace
      = w.trace ++ [.refreshCall r] := by
  have htr := truthy_some_of_ne hr
  have hexp2 : e - 30000 < now := by omega
  unfold preemptiveStage isAccessExpired doRefresh
  rw [hs]
  cases ho : refreshO w.refreshCount <;>
    simp [readSlot, hexp2, htr, ho, emitRefreshCall]

/-- C4: isAccessExpired with the default 30 second margin returns true
exactly when the current time exceeds expires_at minus 30 seconds; and for
a stored session inside that margin (with a usable refresh token),
authorizedRequest issues the refresh network call before any dispatch of
the wrapped request: the refresh call is the first new event of the
trace. -/
theorem margin_correctness (refreshO : Nat → RefreshOutcome)
    (dispatchO : Nat → Nat) (now : Int) (w : World) :
    (∀ tk e, (readSlot w.slot).1 = some tk → tk.expires_at = some e →
      ((isAccessExpired 30 now w).1 = true ↔ now > e - 30 * 1000))
    ∧ (∀ a r e, w.slot = some (.valid ⟨some a, some r, some e⟩) → r ≠ "" →
       now > e - 30 * 1000 →
       ∃ rest, (authorizedRequest refreshO dispatchO now false w).2.trace
         = w.trace ++ NetEvent.refreshCall r :: rest) := by
  constructor
  · intro tk e h he
    unfold isAccessExpired
    rw [h]
    simp [he]
  · intro a r e hs hr hexp
    obtain ⟨t, ht⟩ := retryStage_trace_ext refreshO dispatchO now false
      (dispatchWith dispatchO ((preemptiveStage refreshO now w).1.bind
        StoredTokens.access_token) (preemptiveStage refreshO now w).2).1
      (dispatchWith dispatchO ((preemptiveStage refreshO now w).1.bind
        StoredTokens.access_token) (preemptiveStage refreshO now w).2).2
    have hpre := preemptiveStage_trace_expired refreshO now w a r e hs hr hexp
    have hdis : (dispatchWith dispatchO ((preemptiveStage refreshO now w).1.bind
        StoredTokens.access_token) (preemptiveStage refreshO now w).2).2.trace
        = w.trace ++ [.refreshCall r]
          ++ [.dispatch (headerToken ((preemptiveStage refreshO now w).1.bind
              StoredTokens.access_token))] := by
      simp [dispatchWith, emitDispatch, hpre]
    refine ⟨.dispatch (headerToken ((preemptiveStage refreshO now w).1.bind
      StoredTokens.access_token)) :: t, ?_⟩
    simp only [authorizedRequest]
    rw [ht, hdis]
    simp [List.append_assoc]

theorem margin_correctness_witness :
    (isAccessExpired 30 3601000
      (World.mk0 (some (.valid ⟨some "A", some "R", some 3600000⟩)))).1 = true
    ∧ ∃ rest, (authorizedRequest (fun _ => RefreshOutcome.netFail) (fun _ => 200)
        3601000 false
        (World.mk0 (some (.valid ⟨some "A", some "R", some 3600000⟩)))).2.trace
        = NetEvent.refreshCall "R" :: rest := by
  have h := margin_correctness (fun _ => RefreshOutcome.netFail) (fun _ => 200)
    3601000 (World.mk0 (some (.valid ⟨some "A", some "R", some 3600000⟩)))
  constructor
  · exact (h.1 ⟨some "A", some "R", some 3600000⟩ 3600000 rfl rfl).mpr (by decide)
  · obtain ⟨rest, hrest⟩ := h.2 "A" "R" 3600000 rfl (by decide) (by decide)
    exact ⟨rest, by simpa using hrest⟩
